import Mathlib

/-! Kestra provider: the flow and role reconcilers.

A shallow embedding of `internal/provider/resource_flow.go` and
`internal/provider/resource_role.go`.

* `*schema.ResourceData` becomes an explicit record (`FlowData`, `RoleData`) that each
  operation receives and returns.
* The remote-access collaborator `*Client` becomes a structure of functions; a Go result
  pair `(r, reqErr)` is a Lean pair whose second component is `none` for a nil error.
* Every operation also returns a trace of the collaborator calls it made, in order, so that
  statements such as "no remote write is issued" can be expressed.
* A Go runtime panic (failed type assertion, nil dereference) is the result `panicked`.
-/

namespace Kestra

/-! ## Values, errors and diagnostics -/

/-- A Go `error` value that is not nil, identified with its message. -/
abbrev GoError := String

/-- A decoded JSON value held in a Go empty interface. -/
inductive GoValue where
  | nil
  | bool (b : Bool)
  | int (n : Int)
  | str (s : String)
  | list (xs : List GoValue)
  | map (kvs : List (String × GoValue))

/-- Go's map from strings to empty-interface values, the shape of a wire document. -/
abbrev Doc := List (String × GoValue)

/-- The type assertion of a response to the map type; `none` is the runtime panic. -/
def GoValue.asMap : GoValue → Option Doc
  | .map kvs => some kvs
  | _ => none

/-- Lookup of a member of a document. -/
def Doc.get : Doc → String → Option GoValue
  | [], _ => none
  | (k, v) :: rest, key => if k = key then some v else Doc.get rest key

/-- The string held by a value, if it is one. -/
def GoValue.asStr : GoValue → Option String
  | .str s => some s
  | _ => none

/-- The integer held by a value, if it is one. -/
def GoValue.asInt : GoValue → Option Int
  | .int n => some n
  | _ => none

/-- The boolean held by a value, if it is one. -/
def GoValue.asBool : GoValue → Option Bool
  | .bool b => some b
  | _ => none

/-- The elements held by a value, if it is a list. -/
def GoValue.asList : GoValue → Option (List GoValue)
  | .list xs => some xs
  | _ => none

/-- The client's `*RequestError`: `StatusCode` and the wrapped `Err` (nil is `none`). -/
structure RequestError where
  StatusCode : Nat
  Err : Option GoError
  deriving DecidableEq, Repr

/-- Go's `http.StatusNotFound`. -/
def http.StatusNotFound : Nat := 404

/-- Severity of a diagnostic (`diag.Error`, `diag.Warning`). -/
inductive Severity where
  | Error
  | Warning
  deriving DecidableEq, Repr

/-- One entry of `diag.Diagnostics`. -/
structure Diagnostic where
  severity : Severity
  summary : String
  deriving DecidableEq, Repr

/-- The SDK's `diag.Diagnostics`; the nil slice is `[]`. -/
abbrev Diagnostics := List Diagnostic

/-- The SDK's `diag.FromErr`: nil for a nil error, else one error diagnostic. -/
def diag.FromErr : Option GoError → Diagnostics
  | none => []
  | some e => [⟨Severity.Error, e⟩]

/-- The SDK's `Diagnostics.HasError`. -/
def Diagnostics.HasError (ds : Diagnostics) : Bool :=
  ds.any (fun x => x.severity == Severity.Error)

/-- The helper `stringToPointer`. -/
def stringToPointer (s : String) : Option String := some s

/-! ## Collaborators -/

/-- One collaborator call, as recorded in an operation's trace. -/
inductive Event where
  | request (method url : String) (body : Option Doc)
  | yamlRequest (method url : String) (body : Option String)
  | flowConvertId (id : String)
  | flowSchemaToApi
  | flowApiToSchema
  | flowSourceApiToSchema
  | roleSchemaToApi
  | roleApiToSchema

/-- The remote-access collaborator `*Client`: its tenant scope and its two request
methods, each returning the Go pair of a response value and a `*RequestError`. -/
structure Client where
  TenantId : String
  request : String → String → Option Doc → GoValue × Option RequestError
  yamlRequest : String → String → Option String → GoValue × Option RequestError

/-- How a Go call ended: it returned diagnostics, or it panicked. -/
inductive Result where
  | returned (diags : Diagnostics)
  | panicked
  deriving DecidableEq, Repr

/-- What an operation leaves behind: the record, the collaborator calls made, the result. -/
structure Outcome (α : Type) where
  d : α
  trace : List Event
  result : Result

/-- The remote requests of a trace as (method, url) pairs, in order. -/
def requests : List Event → List (String × String)
  | [] => []
  | Event.request m u _ :: es => (m, u) :: requests es
  | Event.yamlRequest m u _ :: es => (m, u) :: requests es
  | _ :: es => requests es

/-- The `fromRemote` write-backs of a trace, in order. -/
def writeBacks : List Event → List Event
  | [] => []
  | Event.flowApiToSchema :: es => Event.flowApiToSchema :: writeBacks es
  | Event.flowSourceApiToSchema :: es => Event.flowSourceApiToSchema :: writeBacks es
  | Event.roleApiToSchema :: es => Event.roleApiToSchema :: writeBacks es
  | _ :: es => writeBacks es

/-- The remote calls of a trace with their bodies, in order. -/
def remoteCalls : List Event → List Event
  | [] => []
  | Event.request m u b :: es => Event.request m u b :: remoteCalls es
  | Event.yamlRequest m u b :: es => Event.yamlRequest m u b :: remoteCalls es
  | _ :: es => remoteCalls es

/-- The attribute-mapper calls of a trace (`toRemote` and `fromRemote`), in order. -/
def mapperCalls : List Event → List Event
  | [] => []
  | Event.flowSchemaToApi :: es => Event.flowSchemaToApi :: mapperCalls es
  | Event.flowApiToSchema :: es => Event.flowApiToSchema :: mapperCalls es
  | Event.flowSourceApiToSchema :: es => Event.flowSourceApiToSchema :: mapperCalls es
  | Event.roleSchemaToApi :: es => Event.roleSchemaToApi :: mapperCalls es
  | Event.roleApiToSchema :: es => Event.roleApiToSchema :: mapperCalls es
  | _ :: es => mapperCalls es

/-! ## Flow resource (`resource_flow.go`) -/

/-- The `*schema.ResourceData` of a flow: `d.Id()`, the schema attributes of `resourceFlow`
(`namespace_` is the attribute "namespace"), and the keys the diff reports as changed. -/
structure FlowData where
  id : String
  namespace_ : String
  flow_id : String
  revision : Int
  keep_original_source : Bool
  content : String
  changedKeys : List String
  deriving DecidableEq, Repr

/-- The SDK's `d.HasChanges(keys...)`: some key has a change. -/
def FlowData.HasChanges (d : FlowData) (keys : List String) : Bool :=
  keys.any (fun k => d.changedKeys.contains k)

/-- The helpers of the flow resource that `resource_flow.go` calls: the identifier decoder
(`none` when it does not return, its Go signature having no error result) and the three
attribute mappers. -/
structure FlowEnv where
  flowConvertId : String → Option (String × String)
  flowSchemaToApi : FlowData → Doc × Option GoError
  flowApiToSchema : Doc → FlowData → FlowData × Diagnostics
  flowSourceApiToSchema : Doc → FlowData → FlowData × Diagnostics

/-- Go `resourceFlowCreate`. -/
def resourceFlowCreate (m : FlowEnv) (c : Client) (d : FlowData) : Outcome FlowData :=
  let diags : Diagnostics := []
  let yamlSourceCode := d.keep_original_source
  if yamlSourceCode = true then
    let body := stringToPointer d.content
    let resp := c.yamlRequest "POST" "/api/v1/flows" body
    let t := [Event.yamlRequest "POST" "/api/v1/flows" body]
    match resp.2 with
    | some reqErr => ⟨d, t, .returned (diag.FromErr reqErr.Err)⟩
    | none =>
      match resp.1.asMap with
      | none => ⟨d, t, .panicked⟩
      | some doc =>
        let w := m.flowSourceApiToSchema doc d
        if w.2 ≠ [] then ⟨w.1, t ++ [Event.flowSourceApiToSchema], .returned w.2⟩
        else ⟨w.1, t ++ [Event.flowSourceApiToSchema], .returned diags⟩
  else
    let b := m.flowSchemaToApi d
    match b.2 with
    | some err => ⟨d, [Event.flowSchemaToApi], .returned (diag.FromErr (some err))⟩
    | none =>
      let resp := c.request "POST" "/api/v1/flows" (some b.1)
      let t := [Event.flowSchemaToApi, Event.request "POST" "/api/v1/flows" (some b.1)]
      match resp.2 with
      | some reqErr => ⟨d, t, .returned (diag.FromErr reqErr.Err)⟩
      | none =>
        match resp.1.asMap with
        | none => ⟨d, t, .panicked⟩
        | some doc =>
          let w := m.flowApiToSchema doc d
          if w.2 ≠ [] then ⟨w.1, t ++ [Event.flowApiToSchema], .returned w.2⟩
          else ⟨w.1, t ++ [Event.flowApiToSchema], .returned diags⟩

/-- Go `resourceFlowRead`. -/
def resourceFlowRead (m : FlowEnv) (c : Client) (d : FlowData) : Outcome FlowData :=
  let diags : Diagnostics := []
  match m.flowConvertId d.id with
  | none => ⟨d, [Event.flowConvertId d.id], .panicked⟩
  | some (namespaceId, flowId) =>
    let yamlSourceCode := d.keep_original_source
    if yamlSourceCode = true then
      let url := "/api/v1/flows/" ++ namespaceId ++ "/" ++ flowId ++ "?source=true"
      let resp := c.yamlRequest "GET" url none
      let t := [Event.flowConvertId d.id, Event.yamlRequest "GET" url none]
      match resp.2 with
      | some reqErr =>
        if reqErr.StatusCode = http.StatusNotFound then
          ⟨{ d with id := "" }, t, .returned diags⟩
        else ⟨d, t, .returned (diag.FromErr reqErr.Err)⟩
      | none =>
        match resp.1.asMap with
        | none => ⟨d, t, .panicked⟩
        | some doc =>
          let w := m.flowSourceApiToSchema doc d
          if w.2 ≠ [] then ⟨w.1, t ++ [Event.flowSourceApiToSchema], .returned w.2⟩
          else ⟨w.1, t ++ [Event.flowSourceApiToSchema], .returned diags⟩
    else
      let url := "/api/v1/flows/" ++ namespaceId ++ "/" ++ flowId
      let resp := c.request "GET" url none
      let t := [Event.flowConvertId d.id, Event.request "GET" url none]
      match resp.2 with
      | some reqErr =>
        if reqErr.StatusCode = http.StatusNotFound then
          ⟨{ d with id := "" }, t, .returned diags⟩
        else ⟨d, t, .returned (diag.FromErr reqErr.Err)⟩
      | none =>
        match resp.1.asMap with
        | none => ⟨d, t, .panicked⟩
        | some doc =>
          let w := m.flowApiToSchema doc d
          if w.2 ≠ [] then ⟨w.1, t ++ [Event.flowApiToSchema], .returned w.2⟩
          else ⟨w.1, t ++ [Event.flowApiToSchema], .returned diags⟩

/-- Go `resourceFlowUpdate`. -/
def resourceFlowUpdate (m : FlowEnv) (c : Client) (d : FlowData) : Outcome FlowData :=
  let diags : Diagnostics := []
  if d.HasChanges ["content"] = true then
    let yamlSourceCode := d.keep_original_source
    if yamlSourceCode = true then
      let url := "/api/v1/flows/" ++ d.namespace_ ++ "/" ++ d.flow_id
      let body := stringToPointer d.content
      let resp := c.yamlRequest "PUT" url body
      let t := [Event.yamlRequest "PUT" url body]
      match resp.2 with
      | some reqErr => ⟨d, t, .returned (diag.FromErr reqErr.Err)⟩
      | none =>
        match resp.1.asMap with
        | none => ⟨d, t, .panicked⟩
        | some doc =>
          let w := m.flowSourceApiToSchema doc d
          if w.2 ≠ [] then ⟨w.1, t ++ [Event.flowSourceApiToSchema], .returned w.2⟩
          else ⟨w.1, t ++ [Event.flowSourceApiToSchema], .returned diags⟩
    else
      let b := m.flowSchemaToApi d
      match b.2 with
      | some err => ⟨d, [Event.flowSchemaToApi], .returned (diag.FromErr (some err))⟩
      | none =>
        match m.flowConvertId d.id with
        | none => ⟨d, [Event.flowSchemaToApi, Event.flowConvertId d.id], .panicked⟩
        | some (namespaceId, flowId) =>
          let url := "/api/v1/flows/" ++ namespaceId ++ "/" ++ flowId
          let resp := c.request "PUT" url (some b.1)
          let t := [Event.flowSchemaToApi, Event.flowConvertId d.id,
            Event.request "PUT" url (some b.1)]
          match resp.2 with
          | some reqErr => ⟨d, t, .returned (diag.FromErr reqErr.Err)⟩
          | none =>
            match resp.1.asMap with
            | none => ⟨d, t, .panicked⟩
            | some doc =>
              let w := m.flowApiToSchema doc d
              if w.2 ≠ [] then ⟨w.1, t ++ [Event.flowApiToSchema], .returned w.2⟩
              else ⟨w.1, t ++ [Event.flowApiToSchema], .returned diags⟩
  else
    resourceFlowRead m c d

/-- Go `resourceFlowDelete`. -/
def resourceFlowDelete (m : FlowEnv) (c : Client) (d : FlowData) : Outcome FlowData :=
  let diags : Diagnostics := []
  match m.flowConvertId d.id with
  | none => ⟨d, [Event.flowConvertId d.id], .panicked⟩
  | some (namespaceId, flowId) =>
    let url := "/api/v1/flows/" ++ namespaceId ++ "/" ++ flowId
    let resp := c.request "DELETE" url none
    let t := [Event.flowConvertId d.id, Event.request "DELETE" url none]
    match resp.2 with
    | some reqErr => ⟨d, t, .returned (diag.FromErr reqErr.Err)⟩
    | none => ⟨{ d with id := "" }, t, .returned diags⟩

/-! ## Role resource (`resource_role.go`) -/

/-- One element of the "permissions" set of `resourceRole`. -/
structure PermissionGrant where
  type : String
  permissions : List String
  deriving DecidableEq, Repr

/-- The `*schema.ResourceData` of a role: `d.Id()`, the schema attributes of `resourceRole`
(`namespace_` is the attribute "namespace"), and the keys the diff reports as changed. -/
structure RoleData where
  id : String
  tenant_id : String
  namespace_ : String
  name : String
  description : String
  is_default : Bool
  permissions : List PermissionGrant
  changedKeys : List String
  deriving DecidableEq, Repr

/-- The SDK's `d.HasChanges(keys...)`: some key has a change. -/
def RoleData.HasChanges (d : RoleData) (keys : List String) : Bool :=
  keys.any (fun k => d.changedKeys.contains k)

/-- The helpers of the role resource that `resource_role.go` calls: the path root of a
tenant and the two attribute mappers. -/
structure RoleEnv where
  apiRoot : String → String
  roleSchemaToApi : RoleData → Doc × Option GoError
  roleApiToSchema : Doc → RoleData → Client → RoleData × Diagnostics

/-- Go `resourceRoleCreate`. -/
def resourceRoleCreate (m : RoleEnv) (c : Client) (d : RoleData) : Outcome RoleData :=
  let diags : Diagnostics := []
  let tenantId := c.TenantId
  let b := m.roleSchemaToApi d
  match b.2 with
  | some err => ⟨d, [Event.roleSchemaToApi], .returned (diag.FromErr (some err))⟩
  | none =>
    let url := m.apiRoot tenantId ++ "/roles"
    let resp := c.request "POST" url (some b.1)
    let t := [Event.roleSchemaToApi, Event.request "POST" url (some b.1)]
    match resp.2 with
    | some reqErr => ⟨d, t, .returned (diag.FromErr reqErr.Err)⟩
    | none =>
      match resp.1.asMap with
      | none => ⟨d, t, .panicked⟩
      | some doc =>
        let w := m.roleApiToSchema doc d c
        if w.2 ≠ [] then ⟨w.1, t ++ [Event.roleApiToSchema], .returned w.2⟩
        else ⟨w.1, t ++ [Event.roleApiToSchema], .returned diags⟩

/-- Go `resourceRoleRead`. -/
def resourceRoleRead (m : RoleEnv) (c : Client) (d : RoleData) : Outcome RoleData :=
  let diags : Diagnostics := []
  let roleId := d.id
  let tenantId := c.TenantId
  let url := m.apiRoot tenantId ++ "/roles/" ++ roleId
  let resp := c.request "GET" url none
  let t := [Event.request "GET" url none]
  match resp.2 with
  | some reqErr =>
    if reqErr.StatusCode = http.StatusNotFound then
      ⟨{ d with id := "" }, t, .returned diags⟩
    else ⟨d, t, .returned (diag.FromErr reqErr.Err)⟩
  | none =>
    match resp.1.asMap with
    | none => ⟨d, t, .panicked⟩
    | some doc =>
      let w := m.roleApiToSchema doc d c
      if w.2 ≠ [] then ⟨w.1, t ++ [Event.roleApiToSchema], .returned w.2⟩
      else ⟨w.1, t ++ [Event.roleApiToSchema], .returned diags⟩

/-- Go `resourceRoleUpdate`. After the PUT the source tests `err` (the mapper's error,
nil at that point), not `reqErr`; the guarded return dereferences `reqErr`. -/
def resourceRoleUpdate (m : RoleEnv) (c : Client) (d : RoleData) : Outcome RoleData :=
  let diags : Diagnostics := []
  if d.HasChanges ["namespace", "name", "description", "permissions", "is_default"] = true then
    let b := m.roleSchemaToApi d
    match b.2 with
    | some err => ⟨d, [Event.roleSchemaToApi], .returned (diag.FromErr (some err))⟩
    | none =>
      let roleId := d.id
      let tenantId := c.TenantId
      let url := m.apiRoot tenantId ++ "/roles/" ++ roleId
      let resp := c.request "PUT" url (some b.1)
      let t := [Event.roleSchemaToApi, Event.request "PUT" url (some b.1)]
      if b.2 ≠ none then
        match resp.2 with
        | some reqErr => ⟨d, t, .returned (diag.FromErr reqErr.Err)⟩
        | none => ⟨d, t, .panicked⟩
      else
        match resp.1.asMap with
        | none => ⟨d, t, .panicked⟩
        | some doc =>
          let w := m.roleApiToSchema doc d c
          if w.2 ≠ [] then ⟨w.1, t ++ [Event.roleApiToSchema], .returned w.2⟩
          else ⟨w.1, t ++ [Event.roleApiToSchema], .returned diags⟩
  else
    resourceRoleRead m c d

/-- Go `resourceRoleDelete`. -/
def resourceRoleDelete (m : RoleEnv) (c : Client) (d : RoleData) : Outcome RoleData :=
  let diags : Diagnostics := []
  let roleId := d.id
  let tenantId := c.TenantId
  let url := m.apiRoot tenantId ++ "/roles/" ++ roleId
  let resp := c.request "DELETE" url none
  let t := [Event.request "DELETE" url none]
  match resp.2 with
  | some reqErr => ⟨d, t, .returned (diag.FromErr reqErr.Err)⟩
  | none => ⟨{ d with id := "" }, t, .returned diags⟩

/-! ## Collaborators modelled from the specification

The bodies of the identifier decoder, of the attribute mappers and of `apiRoot` are not
part of the two source files. The general theorems below hold for every choice of them
(`FlowEnv`, `RoleEnv`); the instances here are used at concrete inputs. -/

/-- Modelled from the spec: the Identifier Codec's decode for flows (`flowConvertId`, body
not among the sources). The identifier is two components joined by the separator "/";
decoding fails if the separator is absent, if a component is empty, or if the separator
count does not match the arity two. -/
def flowConvertId (id : String) : Option (String × String) :=
  match id.data.span (fun ch => ch != '/') with
  | (a, _ :: b) =>
    if a.isEmpty || b.isEmpty || b.contains '/' then none
    else some (String.mk a, String.mk b)
  | (_, []) => none

/-- Modelled from the spec: the structured `toRemote` of a flow (`flowSchemaToApi`, body not
among the sources). It fails with a ValidationError if a required field is absent;
the decomposition of the content into structured fields is kept as one member. -/
def flowSchemaToApi (d : FlowData) : Doc × Option GoError :=
  if d.namespace_ = "" ∨ d.flow_id = "" ∨ d.content = "" then
    ([], some "ValidationError: a required field is absent")
  else
    ([("namespace", GoValue.str d.namespace_), ("id", GoValue.str d.flow_id),
      ("flow", GoValue.str d.content)], none)

/-- Modelled from the spec: the structured `fromRemote` of a flow (`flowApiToSchema`, body
not among the sources). It writes the recognised fields, the RevisionMarker and the
composed identifier back into the record and ignores unknown members. -/
def flowApiToSchema (r : Doc) (d : FlowData) : FlowData × Diagnostics :=
  let ns := ((r.get "namespace").bind GoValue.asStr).getD d.namespace_
  let fid := ((r.get "id").bind GoValue.asStr).getD d.flow_id
  ({ d with
      id := ns ++ "/" ++ fid
      namespace_ := ns
      flow_id := fid
      revision := ((r.get "revision").bind GoValue.asInt).getD d.revision
      content := ((r.get "flow").bind GoValue.asStr).getD d.content }, [])

/-- Modelled from the spec: the raw-source `fromRemote` of a flow (`flowSourceApiToSchema`,
body not among the sources). It writes the server-confirmed source string, the
RevisionMarker and the addressing fields back into the record. -/
def flowSourceApiToSchema (r : Doc) (d : FlowData) : FlowData × Diagnostics :=
  let ns := ((r.get "namespace").bind GoValue.asStr).getD d.namespace_
  let fid := ((r.get "id").bind GoValue.asStr).getD d.flow_id
  ({ d with
      id := ns ++ "/" ++ fid
      namespace_ := ns
      flow_id := fid
      revision := ((r.get "revision").bind GoValue.asInt).getD d.revision
      content := ((r.get "source").bind GoValue.asStr).getD d.content }, [])

/-- The flow helpers as modelled from the spec. -/
def specFlowEnv : FlowEnv :=
  ⟨flowConvertId, flowSchemaToApi, flowApiToSchema, flowSourceApiToSchema⟩

/-- Modelled from the spec: the path root of a tenant scope (`apiRoot`, body not among the
sources), the prefix of every remote path of the role kind. -/
def apiRoot (tenantId : String) : String :=
  "/api/v1/" ++ tenantId

/-- The wire shape of one grant: a `type` and its `permissions`. -/
def grantToApi (g : PermissionGrant) : GoValue :=
  GoValue.map [("type", GoValue.str g.type),
    ("permissions", GoValue.list (g.permissions.map GoValue.str))]

/-- A grant read back from its wire shape. -/
def grantOfApi (v : GoValue) : Option PermissionGrant :=
  match v.asMap with
  | none => none
  | some kvs =>
    match (kvs.get "type").bind GoValue.asStr, (kvs.get "permissions").bind GoValue.asList with
    | some t, some ps => some ⟨t, ps.filterMap GoValue.asStr⟩
    | _, _ => none

/-- Modelled from the spec: the structured `toRemote` of a role (`roleSchemaToApi`, body not
among the sources). It fails with a ValidationError if the required name is absent or if
a permission category repeats. -/
def roleSchemaToApi (d : RoleData) : Doc × Option GoError :=
  if d.name = "" then
    ([], some "ValidationError: name is required")
  else if ¬ (d.permissions.map (fun g => g.type)).Nodup then
    ([], some "ValidationError: duplicate permission type")
  else
    ([("namespaceId", GoValue.str d.namespace_), ("name", GoValue.str d.name),
      ("description", GoValue.str d.description), ("isDefault", GoValue.bool d.is_default),
      ("permissions", GoValue.list (d.permissions.map grantToApi))], none)

/-- Modelled from the spec: the structured `fromRemote` of a role (`roleApiToSchema`, body
not among the sources). It writes the recognised fields and the identifier back into the
record, takes the tenant scope from the client, and ignores unknown members. -/
def roleApiToSchema (r : Doc) (d : RoleData) (c : Client) : RoleData × Diagnostics :=
  ({ d with
      id := ((r.get "id").bind GoValue.asStr).getD d.id
      tenant_id := c.TenantId
      namespace_ := ((r.get "namespaceId").bind GoValue.asStr).getD d.namespace_
      name := ((r.get "name").bind GoValue.asStr).getD d.name
      description := ((r.get "description").bind GoValue.asStr).getD d.description
      is_default := ((r.get "isDefault").bind GoValue.asBool).getD d.is_default
      permissions :=
        match (r.get "permissions").bind GoValue.asList with
        | some gs => gs.filterMap grantOfApi
        | none => d.permissions }, [])

/-- The role helpers as modelled from the spec. -/
def specRoleEnv : RoleEnv :=
  ⟨apiRoot, roleSchemaToApi, roleApiToSchema⟩

/-! ## Concrete collaborators and records -/

/-- A remote whose every call fails with the given status. -/
def failingClient (status : Nat) (msg : String) : Client :=
  ⟨"main", fun _ _ _ => (GoValue.nil, some ⟨status, some msg⟩),
    fun _ _ _ => (GoValue.nil, some ⟨status, some msg⟩)⟩

/-- A remote whose every call succeeds and answers with the given document. -/
def answeringClient (doc : Doc) : Client :=
  ⟨"main", fun _ _ _ => (GoValue.map doc, none), fun _ _ _ => (GoValue.map doc, none)⟩

/-- A flow record in raw-source mode with changed content. -/
def rawFlow : FlowData :=
  ⟨"company.team/hello", "company.team", "hello", 1, true, "id: hello", ["content"]⟩

/-- A flow record in structured mode with changed content. -/
def structuredFlow : FlowData :=
  ⟨"company.team/hello", "company.team", "hello", 1, false, "id: hello", ["content"]⟩

/-- A role record with a changed description. -/
def adminRole : RoleData :=
  ⟨"r1", "main", "company.team", "admin", "all rights", false,
    [⟨"FLOW", ["READ", "EXECUTE"]⟩], ["description"]⟩

/-- A flow record in raw-source mode whose namespace and flow_id attributes differ from the
components of its stored identifier. -/
def movedFlow : FlowData :=
  ⟨"company.team/hello", "other.team", "bye", 1, true, "id: bye", ["content"]⟩

/-- A structured flow record whose required content is absent. -/
def emptyFlow : FlowData :=
  ⟨"company.team/hello", "company.team", "hello", 1, false, "", ["content"]⟩

/-- A role record with two grants of the same category. -/
def twiceGrantedRole : RoleData :=
  ⟨"r1", "main", "company.team", "admin", "all rights", false,
    [⟨"FLOW", ["READ"]⟩, ⟨"FLOW", ["EXECUTE"]⟩], ["permissions"]⟩

/-- A role record with the identifier of `adminRole` and every other field different. -/
def renamedRole : RoleData :=
  ⟨"r1", "other", "company.sales", "viewer", "read only", true, [], ["name"]⟩

/-- A flow record in structured mode whose diff reports no change. -/
def emptyNewFlow : FlowData :=
  ⟨"", "company.team", "hello", 0, false, "", []⟩

/-- A role record with two grants of the same category whose diff reports no change. -/
def twiceGrantedNewRole : RoleData :=
  ⟨"", "", "company.team", "admin", "all rights", false,
    [⟨"FLOW", ["READ"]⟩, ⟨"FLOW", ["EXECUTE"]⟩], []⟩

/-- A raw-source flow record not yet created, its diff reporting no change. -/
def newRawFlow : FlowData :=
  ⟨"", "company.team", "hello", 0, true, "id: hello", []⟩

/-- A structured flow record not yet created, its diff reporting no change. -/
def newStructuredFlow : FlowData :=
  ⟨"", "company.team", "hello", 0, false, "id: hello", []⟩

/-- The answer of the remote to a write of the flow "company.team/hello": revision 2. -/
def helloDoc : Doc :=
  [("id", GoValue.str "hello"), ("namespace", GoValue.str "company.team"),
    ("revision", GoValue.int 2), ("source", GoValue.str "id: hello"),
    ("flow", GoValue.str "id: hello")]

/-- A remote whose every call fails with the given status and a nil `Err`. -/
def bareFailingClient (status : Nat) : Client :=
  ⟨"main", fun _ _ _ => (GoValue.nil, some ⟨status, none⟩),
    fun _ _ _ => (GoValue.nil, some ⟨status, none⟩)⟩

/-- A decoder that validates nothing: it cuts at the first "/" and returns both sides,
empty or not. -/
def lenientConvertId (id : String) : Option (String × String) :=
  match id.data.span (fun ch => ch != '/') with
  | (a, _ :: b) => some (String.mk a, String.mk b)
  | (a, []) => some (String.mk a, "")

/-- The flow helpers with the decoder that validates nothing. -/
def lenientFlowEnv : FlowEnv :=
  ⟨lenientConvertId, flowSchemaToApi, flowApiToSchema, flowSourceApiToSchema⟩

/-! ## Read: a not-found answer is drift, any other failure is fatal -/

/-- C3. Read of a flow (in either representation mode) and of a role: when the fetch call
fails with status 404, Read sets the identifier to the empty string and leaves every other
field as it was, returns no diagnostics, and applies no `fromRemote` write-back. -/
theorem read_not_found_clears_identifier
    (m : FlowEnv) (c : Client) (d : FlowData) (ns fid : String) (e : RequestError)
    (mr : RoleEnv) (cr : Client) (dr : RoleData) (er : RequestError)
    (hid : m.flowConvertId d.id = some (ns, fid))
    (hraw : d.keep_original_source = true →
      (c.yamlRequest "GET" ("/api/v1/flows/" ++ ns ++ "/" ++ fid ++ "?source=true") none).2
        = some e)
    (hstr : d.keep_original_source = false →
      (c.request "GET" ("/api/v1/flows/" ++ ns ++ "/" ++ fid) none).2 = some e)
    (he : e.StatusCode = 404)
    (hrole : (cr.request "GET" (mr.apiRoot cr.TenantId ++ "/roles/" ++ dr.id) none).2
      = some er)
    (her : er.StatusCode = 404) :
    ((resourceFlowRead m c d).d = { d with id := "" } ∧
      (resourceFlowRead m c d).result = Result.returned [] ∧
      writeBacks (resourceFlowRead m c d).trace = []) ∧
    ((resourceRoleRead mr cr dr).d = { dr with id := "" } ∧
      (resourceRoleRead mr cr dr).result = Result.returned [] ∧
      writeBacks (resourceRoleRead mr cr dr).trace = []) := by
  constructor
  · cases hk : d.keep_original_source
    · have h := hstr hk
      simp [resourceFlowRead, hid, hk, h, he, http.StatusNotFound, writeBacks]
    · have h := hraw hk
      simp [resourceFlowRead, hid, hk, h, he, http.StatusNotFound, writeBacks]
  · simp [resourceRoleRead, hrole, her, http.StatusNotFound, writeBacks]

/-- Witness for C3: a raw-source flow, a structured flow and a role, each read against a
remote that answers 404. -/
theorem read_not_found_clears_identifier_witness :
    (specFlowEnv.flowConvertId rawFlow.id = some ("company.team", "hello") ∧
      ((resourceFlowRead specFlowEnv (failingClient 404 "status: 404") rawFlow).d
          = { rawFlow with id := "" } ∧
        (resourceFlowRead specFlowEnv (failingClient 404 "status: 404") rawFlow).result
          = Result.returned [] ∧
        writeBacks (resourceFlowRead specFlowEnv (failingClient 404 "status: 404") rawFlow).trace
          = []) ∧
      ((resourceRoleRead specRoleEnv (failingClient 404 "status: 404") adminRole).d
          = { adminRole with id := "" } ∧
        (resourceRoleRead specRoleEnv (failingClient 404 "status: 404") adminRole).result
          = Result.returned [] ∧
        writeBacks (resourceRoleRead specRoleEnv (failingClient 404 "status: 404") adminRole).trace
          = [])) ∧
    (resourceFlowRead specFlowEnv (failingClient 404 "status: 404") structuredFlow).d
      = { structuredFlow with id := "" } :=
  ⟨⟨by decide,
    read_not_found_clears_identifier specFlowEnv (failingClient 404 "status: 404") rawFlow
      "company.team" "hello" ⟨404, some "status: 404"⟩
      specRoleEnv (failingClient 404 "status: 404") adminRole ⟨404, some "status: 404"⟩
      (by decide) (fun _ => rfl) (fun _ => rfl) rfl rfl rfl⟩,
   (read_not_found_clears_identifier specFlowEnv (failingClient 404 "status: 404")
      structuredFlow "company.team" "hello" ⟨404, some "status: 404"⟩
      specRoleEnv (failingClient 404 "status: 404") adminRole ⟨404, some "status: 404"⟩
      (by decide) (fun _ => rfl) (fun _ => rfl) rfl rfl rfl).1.1⟩

/-- C8, counterexample. Against a remote whose fetch fails with status 500 and a nil `Err`,
Read of a raw-source flow, of a structured flow and of a role returns no diagnostics. -/
theorem read_failure_without_error_counterexample :
    ((bareFailingClient 500).yamlRequest "GET"
        "/api/v1/flows/company.team/hello?source=true" none).2 = some ⟨500, none⟩ ∧
    (resourceFlowRead specFlowEnv (bareFailingClient 500) rawFlow).result
      = Result.returned [] ∧
    ((bareFailingClient 500).request "GET" "/api/v1/flows/company.team/hello" none).2
      = some ⟨500, none⟩ ∧
    (resourceFlowRead specFlowEnv (bareFailingClient 500) structuredFlow).result
      = Result.returned [] ∧
    ((bareFailingClient 500).request "GET" "/api/v1/main/roles/r1" none).2
      = some ⟨500, none⟩ ∧
    (resourceRoleRead specRoleEnv (bareFailingClient 500) adminRole).result
      = Result.returned [] := by
  decide

/-- C8, amended. Read of a flow (in either representation mode) and of a role: when the
fetch call fails with a status other than 404, Read returns `diag.FromErr` of the failure's
`Err`, leaves the record (identifier included) unchanged, and applies no `fromRemote`
write-back; when that `Err` is not nil the returned diagnostics are the one error
diagnostic of its message, so they are not empty and hold an error. -/
theorem read_other_failure_is_fatal
    (m : FlowEnv) (c : Client) (d : FlowData) (ns fid : String) (e : RequestError)
    (mr : RoleEnv) (cr : Client) (dr : RoleData) (er : RequestError)
    (hid : m.flowConvertId d.id = some (ns, fid))
    (hraw : d.keep_original_source = true →
      (c.yamlRequest "GET" ("/api/v1/flows/" ++ ns ++ "/" ++ fid ++ "?source=true") none).2
        = some e)
    (hstr : d.keep_original_source = false →
      (c.request "GET" ("/api/v1/flows/" ++ ns ++ "/" ++ fid) none).2 = some e)
    (he : e.StatusCode ≠ 404)
    (hrole : (cr.request "GET" (mr.apiRoot cr.TenantId ++ "/roles/" ++ dr.id) none).2
      = some er)
    (her : er.StatusCode ≠ 404) :
    ((resourceFlowRead m c d).d = d ∧
      (resourceFlowRead m c d).result = Result.returned (diag.FromErr e.Err) ∧
      writeBacks (resourceFlowRead m c d).trace = [] ∧
      (∀ msg, e.Err = some msg →
        (resourceFlowRead m c d).result = Result.returned [⟨Severity.Error, msg⟩] ∧
        ∃ diags, (resourceFlowRead m c d).result = Result.returned diags ∧
          diags ≠ [] ∧ diags.HasError = true)) ∧
    ((resourceRoleRead mr cr dr).d = dr ∧
      (resourceRoleRead mr cr dr).result = Result.returned (diag.FromErr er.Err) ∧
      writeBacks (resourceRoleRead mr cr dr).trace = [] ∧
      (∀ msg, er.Err = some msg →
        (resourceRoleRead mr cr dr).result = Result.returned [⟨Severity.Error, msg⟩] ∧
        ∃ diags, (resourceRoleRead mr cr dr).result = Result.returned diags ∧
          diags ≠ [] ∧ diags.HasError = true)) := by
  have hF : (resourceFlowRead m c d).d = d ∧
      (resourceFlowRead m c d).result = Result.returned (diag.FromErr e.Err) ∧
      writeBacks (resourceFlowRead m c d).trace = [] := by
    cases hk : d.keep_original_source
    · have h := hstr hk
      simp [resourceFlowRead, hid, hk, h, he, http.StatusNotFound, writeBacks]
    · have h := hraw hk
      simp [resourceFlowRead, hid, hk, h, he, http.StatusNotFound, writeBacks]
  have hR : (resourceRoleRead mr cr dr).d = dr ∧
      (resourceRoleRead mr cr dr).result = Result.returned (diag.FromErr er.Err) ∧
      writeBacks (resourceRoleRead mr cr dr).trace = [] := by
    simp [resourceRoleRead, hrole, her, http.StatusNotFound, writeBacks]
  refine ⟨⟨hF.1, hF.2.1, hF.2.2, ?_⟩, ⟨hR.1, hR.2.1, hR.2.2, ?_⟩⟩
  · intro msg hmsg
    have h1 : (resourceFlowRead m c d).result = Result.returned [⟨Severity.Error, msg⟩] := by
      rw [hF.2.1, hmsg]
      rfl
    exact ⟨h1, _, h1, by simp, by simp [Diagnostics.HasError]⟩
  · intro msg hmsg
    have h1 : (resourceRoleRead mr cr dr).result
        = Result.returned [⟨Severity.Error, msg⟩] := by
      rw [hR.2.1, hmsg]
      rfl
    exact ⟨h1, _, h1, by simp, by simp [Diagnostics.HasError]⟩

/-- Witness for C8, amended: a raw-source flow, a structured flow and a role, each read
against a remote that answers 500 with its error. -/
theorem read_other_failure_is_fatal_witness :
    specFlowEnv.flowConvertId rawFlow.id = some ("company.team", "hello") ∧
    (resourceFlowRead specFlowEnv (failingClient 500 "status: 500") rawFlow).d = rawFlow ∧
    (resourceFlowRead specFlowEnv (failingClient 500 "status: 500") rawFlow).result
      = Result.returned [⟨Severity.Error, "status: 500"⟩] ∧
    writeBacks (resourceFlowRead specFlowEnv (failingClient 500 "status: 500") rawFlow).trace
      = [] ∧
    (resourceFlowRead specFlowEnv (failingClient 500 "status: 500") structuredFlow).result
      = Result.returned [⟨Severity.Error, "status: 500"⟩] ∧
    (resourceRoleRead specRoleEnv (failingClient 500 "status: 500") adminRole).d
      = adminRole ∧
    (resourceRoleRead specRoleEnv (failingClient 500 "status: 500") adminRole).result
      = Result.returned [⟨Severity.Error, "status: 500"⟩] :=
  ⟨by decide,
   (read_other_failure_is_fatal specFlowEnv (failingClient 500 "status: 500") rawFlow
      "company.team" "hello" ⟨500, some "status: 500"⟩
      specRoleEnv (failingClient 500 "status: 500") adminRole ⟨500, some "status: 500"⟩
      (by decide) (fun _ => rfl) (fun _ => rfl) (by decide) rfl (by decide)).1.1,
   ((read_other_failure_is_fatal specFlowEnv (failingClient 500 "status: 500") rawFlow
      "company.team" "hello" ⟨500, some "status: 500"⟩
      specRoleEnv (failingClient 500 "status: 500") adminRole ⟨500, some "status: 500"⟩
      (by decide) (fun _ => rfl) (fun _ => rfl) (by decide) rfl (by decide)).1.2.2.2
      "status: 500" rfl).1,
   (read_other_failure_is_fatal specFlowEnv (failingClient 500 "status: 500") rawFlow
      "company.team" "hello" ⟨500, some "status: 500"⟩
      specRoleEnv (failingClient 500 "status: 500") adminRole ⟨500, some "status: 500"⟩
      (by decide) (fun _ => rfl) (fun _ => rfl) (by decide) rfl (by decide)).1.2.2.1,
   ((read_other_failure_is_fatal specFlowEnv (failingClient 500 "status: 500")
      structuredFlow "company.team" "hello" ⟨500, some "status: 500"⟩
      specRoleEnv (failingClient 500 "status: 500") adminRole ⟨500, some "status: 500"⟩
      (by decide) (fun _ => rfl) (fun _ => rfl) (by decide) rfl (by decide)).1.2.2.2
      "status: 500" rfl).1,
   (read_other_failure_is_fatal specFlowEnv (failingClient 500 "status: 500") rawFlow
      "company.team" "hello" ⟨500, some "status: 500"⟩
      specRoleEnv (failingClient 500 "status: 500") adminRole ⟨500, some "status: 500"⟩
      (by decide) (fun _ => rfl) (fun _ => rfl) (by decide) rfl (by decide)).2.1,
   ((read_other_failure_is_fatal specFlowEnv (failingClient 500 "status: 500") rawFlow
      "company.team" "hello" ⟨500, some "status: 500"⟩
      specRoleEnv (failingClient 500 "status: 500") adminRole ⟨500, some "status: 500"⟩
      (by decide) (fun _ => rfl) (fun _ => rfl) (by decide) rfl (by decide)).2.2.2.2
      "status: 500" rfl).1⟩

/-! ## Delete -/

/-- C1, counterexample. Against a remote whose delete call fails with status 404, Delete of
a flow and Delete of a role keep the identifier and return an error diagnostic. -/
theorem delete_not_found_counterexample :
    ((failingClient 404 "status: 404").request "DELETE" "/api/v1/flows/company.team/hello"
        none).2 = some ⟨404, some "status: 404"⟩ ∧
    (resourceFlowDelete specFlowEnv (failingClient 404 "status: 404") rawFlow).d.id
      = "company.team/hello" ∧
    (resourceFlowDelete specFlowEnv (failingClient 404 "status: 404") rawFlow).result
      = Result.returned [⟨Severity.Error, "status: 404"⟩] ∧
    ((failingClient 404 "status: 404").request "DELETE" "/api/v1/main/roles/r1" none).2
      = some ⟨404, some "status: 404"⟩ ∧
    (resourceRoleDelete specRoleEnv (failingClient 404 "status: 404") adminRole).d.id = "r1" ∧
    (resourceRoleDelete specRoleEnv (failingClient 404 "status: 404") adminRole).result
      = Result.returned [⟨Severity.Error, "status: 404"⟩] ∧
    requests (resourceRoleDelete specRoleEnv (failingClient 404 "status: 404") adminRole).trace
      = [("DELETE", "/api/v1/main/roles/r1")] := by
  decide

/-- C1, amended. Delete of a flow and of a role: when the delete call fails, with status 404
or any other, Delete leaves the record (identifier included) unchanged and returns the
diagnostics of the failure, an error diagnostic when the failure carries its error; the
identifier is cleared, and success reported, exactly when the delete call succeeds. -/
theorem delete_clears_identifier_only_on_success
    (m : FlowEnv) (c : Client) (d : FlowData) (ns fid : String)
    (mr : RoleEnv) (cr : Client) (dr : RoleData)
    (hid : m.flowConvertId d.id = some (ns, fid)) :
    (∀ e : RequestError,
      (c.request "DELETE" ("/api/v1/flows/" ++ ns ++ "/" ++ fid) none).2 = some e →
      (resourceFlowDelete m c d).d = d ∧
      (resourceFlowDelete m c d).result = Result.returned (diag.FromErr e.Err) ∧
      (∀ msg, e.Err = some msg →
        (resourceFlowDelete m c d).result = Result.returned [⟨Severity.Error, msg⟩])) ∧
    ((c.request "DELETE" ("/api/v1/flows/" ++ ns ++ "/" ++ fid) none).2 = none →
      (resourceFlowDelete m c d).d = { d with id := "" } ∧
      (resourceFlowDelete m c d).result = Result.returned []) ∧
    (∀ e : RequestError,
      (cr.request "DELETE" (mr.apiRoot cr.TenantId ++ "/roles/" ++ dr.id) none).2 = some e →
      (resourceRoleDelete mr cr dr).d = dr ∧
      (resourceRoleDelete mr cr dr).result = Result.returned (diag.FromErr e.Err) ∧
      (∀ msg, e.Err = some msg →
        (resourceRoleDelete mr cr dr).result = Result.returned [⟨Severity.Error, msg⟩])) ∧
    ((cr.request "DELETE" (mr.apiRoot cr.TenantId ++ "/roles/" ++ dr.id) none).2 = none →
      (resourceRoleDelete mr cr dr).d = { dr with id := "" } ∧
      (resourceRoleDelete mr cr dr).result = Result.returned []) := by
  refine ⟨?_, ?_, ?_, ?_⟩
  · intro e h
    simp [resourceFlowDelete, hid, h]
    intro msg hmsg
    simp [hmsg, diag.FromErr]
  · intro h
    simp [resourceFlowDelete, hid, h]
  · intro e h
    simp [resourceRoleDelete, h]
    intro msg hmsg
    simp [hmsg, diag.FromErr]
  · intro h
    simp [resourceRoleDelete, h]

/-- Witness for C1, amended: a flow deleted against a remote that answers 404 keeps its
identifier; deleted against a remote that succeeds it loses it. -/
theorem delete_clears_identifier_only_on_success_witness :
    specFlowEnv.flowConvertId rawFlow.id = some ("company.team", "hello") ∧
    (resourceFlowDelete specFlowEnv (failingClient 404 "status: 404") rawFlow).d = rawFlow ∧
    (resourceFlowDelete specFlowEnv (answeringClient []) rawFlow).d
      = { rawFlow with id := "" } ∧
    (resourceRoleDelete specRoleEnv (failingClient 404 "status: 404") adminRole).d
      = adminRole :=
  ⟨by decide,
   ((delete_clears_identifier_only_on_success specFlowEnv (failingClient 404 "status: 404")
      rawFlow "company.team" "hello" specRoleEnv (failingClient 404 "status: 404") adminRole
      (by decide)).1 ⟨404, some "status: 404"⟩ rfl).1,
   ((delete_clears_identifier_only_on_success specFlowEnv (answeringClient [])
      rawFlow "company.team" "hello" specRoleEnv (failingClient 404 "status: 404") adminRole
      (by decide)).2.1 rfl).1,
   ((delete_clears_identifier_only_on_success specFlowEnv (failingClient 404 "status: 404")
      rawFlow "company.team" "hello" specRoleEnv (failingClient 404 "status: 404") adminRole
      (by decide)).2.2.1 ⟨404, some "status: 404"⟩ rfl).1⟩

/-! ## Update -/

/-- C2, the code at a failing input. A role with a detected change whose mapping succeeds is
updated against a remote whose PUT fails with status 500: `resourceRoleUpdate` does not
return the failure (it tests the mapper's `err`, nil here, instead of `reqErr`) and runs
into the type assertion on the nil response, where `resourceRoleCreate`, against the same
remote failing the POST, returns the failure as an error diagnostic. -/
theorem role_update_ignores_put_failure :
    adminRole.HasChanges ["namespace", "name", "description", "permissions", "is_default"]
      = true ∧
    (specRoleEnv.roleSchemaToApi adminRole).2 = none ∧
    ((failingClient 500 "status: 500").request "PUT" "/api/v1/main/roles/r1"
        (some (specRoleEnv.roleSchemaToApi adminRole).1)).2
      = some ⟨500, some "status: 500"⟩ ∧
    requests (resourceRoleUpdate specRoleEnv (failingClient 500 "status: 500") adminRole).trace
      = [("PUT", "/api/v1/main/roles/r1")] ∧
    (resourceRoleUpdate specRoleEnv (failingClient 500 "status: 500") adminRole).result
      = Result.panicked ∧
    (resourceRoleUpdate specRoleEnv (failingClient 500 "status: 500") adminRole).result
      ≠ Result.returned [⟨Severity.Error, "status: 500"⟩] ∧
    (resourceRoleCreate specRoleEnv (failingClient 500 "status: 500") adminRole).result
      = Result.returned [⟨Severity.Error, "status: 500"⟩] := by
  decide

/-- The one request of a flow Read, once the identifier is decoded. -/
theorem requests_resourceFlowRead (m : FlowEnv) (c : Client) (d : FlowData)
    (ns fid : String) (hid : m.flowConvertId d.id = some (ns, fid)) :
    requests (resourceFlowRead m c d).trace =
      [("GET", "/api/v1/flows/" ++ ns ++ "/" ++ fid ++
        (if d.keep_original_source = true then "?source=true" else ""))] := by
  unfold resourceFlowRead
  simp only [hid]
  cases hk : d.keep_original_source <;>
    (repeat' split) <;> simp_all [requests]

/-- A flow Read whose decoder does not return issues no request. -/
theorem requests_resourceFlowRead_none (m : FlowEnv) (c : Client) (d : FlowData)
    (hid : m.flowConvertId d.id = none) :
    requests (resourceFlowRead m c d).trace = [] ∧
    (resourceFlowRead m c d).result = Result.panicked := by
  simp [resourceFlowRead, hid, requests]

/-- The one request of a role Read. -/
theorem requests_resourceRoleRead (m : RoleEnv) (c : Client) (d : RoleData) :
    requests (resourceRoleRead m c d).trace =
      [("GET", m.apiRoot c.TenantId ++ "/roles/" ++ d.id)] := by
  unfold resourceRoleRead
  dsimp only
  (repeat' split) <;> simp_all [requests]

/-- The request of a role Delete. -/
theorem requests_resourceRoleDelete (m : RoleEnv) (c : Client) (d : RoleData) :
    requests (resourceRoleDelete m c d).trace =
      [("DELETE", m.apiRoot c.TenantId ++ "/roles/" ++ d.id)] := by
  unfold resourceRoleDelete
  dsimp only
  (repeat' split) <;> simp_all [requests]

/-- The request of a role Create: none if the mapper fails, else the POST. -/
theorem requests_resourceRoleCreate (m : RoleEnv) (c : Client) (d : RoleData) :
    requests (resourceRoleCreate m c d).trace =
      (if (m.roleSchemaToApi d).2.isSome = true then []
       else [("POST", m.apiRoot c.TenantId ++ "/roles")]) := by
  unfold resourceRoleCreate
  dsimp only
  (repeat' split) <;> simp_all [requests]

/-- The request of a role Update: Read's GET without a change, else none if the mapper
fails, else the PUT. -/
theorem requests_resourceRoleUpdate (m : RoleEnv) (c : Client) (d : RoleData) :
    requests (resourceRoleUpdate m c d).trace =
      (if d.HasChanges ["namespace", "name", "description", "permissions", "is_default"]
          = true then
        (if (m.roleSchemaToApi d).2.isSome = true then []
         else [("PUT", m.apiRoot c.TenantId ++ "/roles/" ++ d.id)])
       else [("GET", m.apiRoot c.TenantId ++ "/roles/" ++ d.id)]) := by
  unfold resourceRoleUpdate
  by_cases hc : d.HasChanges ["namespace", "name", "description", "permissions", "is_default"]
      = true
  · simp only [hc, if_true]
    (repeat' split) <;> simp_all [requests]
  · simp only [hc, if_false]
    exact requests_resourceRoleRead m c d

/-- C4. Update of a flow whose diff reports no change of "content", and of a role whose diff
reports no change of namespace, name, description, permissions or is_default, is Read:
same record, same trace, same result; every request in its trace is a GET, and there is
exactly one (for a flow, once the identifier is decoded). -/
theorem update_without_change_is_read
    (m : FlowEnv) (c : Client) (d : FlowData)
    (mr : RoleEnv) (cr : Client) (dr : RoleData)
    (hf : d.HasChanges ["content"] = false)
    (hr : dr.HasChanges ["namespace", "name", "description", "permissions", "is_default"]
      = false) :
    resourceFlowUpdate m c d = resourceFlowRead m c d ∧
    (∀ p ∈ requests (resourceFlowUpdate m c d).trace, p.1 = "GET") ∧
    (requests (resourceFlowUpdate m c d).trace).length ≤ 1 ∧
    (∀ ns fid, m.flowConvertId d.id = some (ns, fid) →
      requests (resourceFlowUpdate m c d).trace =
        [("GET", "/api/v1/flows/" ++ ns ++ "/" ++ fid ++
          (if d.keep_original_source = true then "?source=true" else ""))]) ∧
    resourceRoleUpdate mr cr dr = resourceRoleRead mr cr dr ∧
    requests (resourceRoleUpdate mr cr dr).trace =
      [("GET", mr.apiRoot cr.TenantId ++ "/roles/" ++ dr.id)] := by
  have e1 : resourceFlowUpdate m c d = resourceFlowRead m c d := by
    simp [resourceFlowUpdate, hf]
  have e2 : resourceRoleUpdate mr cr dr = resourceRoleRead mr cr dr := by
    simp [resourceRoleUpdate, hr]
  rw [e1, e2]
  refine ⟨rfl, ?_, ?_, ?_, rfl, requests_resourceRoleRead mr cr dr⟩
  · cases hid : m.flowConvertId d.id with
    | none => simp [(requests_resourceFlowRead_none m c d hid).1]
    | some q =>
      obtain ⟨ns, fid⟩ := q
      simp [requests_resourceFlowRead m c d ns fid hid]
  · cases hid : m.flowConvertId d.id with
    | none => simp [(requests_resourceFlowRead_none m c d hid).1]
    | some q =>
      obtain ⟨ns, fid⟩ := q
      simp [requests_resourceFlowRead m c d ns fid hid]
  · intro ns fid hid
    exact requests_resourceFlowRead m c d ns fid hid

/-- Witness for C4: a flow and a role whose diffs report no change, updated against a remote
that answers. -/
theorem update_without_change_is_read_witness :
    ({ rawFlow with changedKeys := [] } : FlowData).HasChanges ["content"] = false ∧
    resourceFlowUpdate specFlowEnv (answeringClient []) { rawFlow with changedKeys := [] }
      = resourceFlowRead specFlowEnv (answeringClient []) { rawFlow with changedKeys := [] } ∧
    requests (resourceRoleUpdate specRoleEnv (answeringClient [])
        { adminRole with changedKeys := ["tenant_id"] }).trace
      = [("GET", specRoleEnv.apiRoot (answeringClient []).TenantId ++ "/roles/" ++ "r1")] :=
  ⟨by decide,
   (update_without_change_is_read specFlowEnv (answeringClient [])
      { rawFlow with changedKeys := [] } specRoleEnv (answeringClient [])
      { adminRole with changedKeys := ["tenant_id"] } (by decide) (by decide)).1,
   (update_without_change_is_read specFlowEnv (answeringClient [])
      { rawFlow with changedKeys := [] } specRoleEnv (answeringClient [])
      { adminRole with changedKeys := ["tenant_id"] } (by decide) (by decide)).2.2.2.2.2⟩

/-- The request of a flow Update with changed content: in raw-source mode the PUT addressed
by the namespace and flow_id attributes; in structured mode none if the mapper fails or
the decoder does not return, else the PUT addressed by the decoded identifier. -/
theorem requests_resourceFlowUpdate (m : FlowEnv) (c : Client) (d : FlowData)
    (hchg : d.HasChanges ["content"] = true) :
    requests (resourceFlowUpdate m c d).trace =
      (if d.keep_original_source = true then
        [("PUT", "/api/v1/flows/" ++ d.namespace_ ++ "/" ++ d.flow_id)]
       else if (m.flowSchemaToApi d).2.isSome = true then []
       else match m.flowConvertId d.id with
         | none => []
         | some q => [("PUT", "/api/v1/flows/" ++ q.1 ++ "/" ++ q.2)]) := by
  unfold resourceFlowUpdate
  simp only [hchg, if_true]
  cases hk : d.keep_original_source <;>
    (repeat' split) <;> simp_all [requests]

/-- C5, counterexample. A raw-source flow whose stored identifier decodes to
("company.team", "hello") while its attributes are namespace "other.team" and flow_id
"bye": Update with changed content sends its PUT to "/api/v1/flows/other.team/bye", not
to "/api/v1/flows/company.team/hello". -/
theorem flow_update_raw_path_counterexample :
    movedFlow.HasChanges ["content"] = true ∧
    movedFlow.keep_original_source = true ∧
    specFlowEnv.flowConvertId movedFlow.id = some ("company.team", "hello") ∧
    requests (resourceFlowUpdate specFlowEnv (answeringClient []) movedFlow).trace
      = [("PUT", "/api/v1/flows/other.team/bye")] ∧
    requests (resourceFlowUpdate specFlowEnv (answeringClient []) movedFlow).trace
      ≠ [("PUT", "/api/v1/flows/company.team/hello")] := by
  decide

/-- C5, amended. Flow Update with changed content: in structured mode the PUT is addressed
to the decoded stored identifier, "/api/v1/flows/ns/id" with (ns, id) the result of
`flowConvertId` on the identifier; in raw-source mode it is addressed by the record's
namespace and flow_id attributes, which is the same path whenever those attributes equal
the identifier's components. -/
theorem flow_update_put_path
    (m : FlowEnv) (c : Client) (d : FlowData) (ns fid : String)
    (hchg : d.HasChanges ["content"] = true)
    (hid : m.flowConvertId d.id = some (ns, fid)) :
    (d.keep_original_source = false →
      (∀ p ∈ requests (resourceFlowUpdate m c d).trace,
        p = ("PUT", "/api/v1/flows/" ++ ns ++ "/" ++ fid)) ∧
      ((m.flowSchemaToApi d).2 = none →
        requests (resourceFlowUpdate m c d).trace
          = [("PUT", "/api/v1/flows/" ++ ns ++ "/" ++ fid)])) ∧
    (d.keep_original_source = true →
      requests (resourceFlowUpdate m c d).trace
        = [("PUT", "/api/v1/flows/" ++ d.namespace_ ++ "/" ++ d.flow_id)] ∧
      (d.namespace_ = ns → d.flow_id = fid →
        requests (resourceFlowUpdate m c d).trace
          = [("PUT", "/api/v1/flows/" ++ ns ++ "/" ++ fid)])) := by
  rw [requests_resourceFlowUpdate m c d hchg]
  constructor
  · intro hk
    constructor
    · intro p hp
      cases hb : (m.flowSchemaToApi d).2 <;> simp_all
    · intro hb
      simp [hk, hb, hid]
  · intro hk
    constructor
    · simp [hk]
    · intro h1 h2
      simp [hk, h1, h2]

/-- Witness for C5, amended: a structured flow and a raw-source flow whose attributes agree
with the identifier both send the PUT to the decoded identifier. -/
theorem flow_update_put_path_witness :
    structuredFlow.HasChanges ["content"] = true ∧
    specFlowEnv.flowConvertId structuredFlow.id = some ("company.team", "hello") ∧
    requests (resourceFlowUpdate specFlowEnv (answeringClient []) structuredFlow).trace
      = [("PUT", "/api/v1/flows/" ++ "company.team" ++ "/" ++ "hello")] ∧
    requests (resourceFlowUpdate specFlowEnv (answeringClient []) rawFlow).trace
      = [("PUT", "/api/v1/flows/" ++ "company.team" ++ "/" ++ "hello")] :=
  ⟨by decide, by decide,
   ((flow_update_put_path specFlowEnv (answeringClient []) structuredFlow "company.team"
      "hello" (by decide) (by decide)).1 rfl).2 (by decide),
   ((flow_update_put_path specFlowEnv (answeringClient []) rawFlow "company.team"
      "hello" (by decide) (by decide)).2 rfl).2 rfl rfl⟩

/-! ## Structured writes: a failing `toRemote` -/

/-- C6. Role Create (record `rc`), role Update with a detected change (record `ru`), and
flow Create (record `fc`) and flow Update with changed content (record `fu`) in structured
mode: when the `toRemote` mapper (`roleSchemaToApi`, `flowSchemaToApi`) fails with an
error, the operation returns that error as its diagnostic, issues no remote request, and
leaves the record unchanged. Create is under no condition on the diff. -/
theorem failed_to_remote_issues_no_request
    (mr : RoleEnv) (cr : Client) (rc ru : RoleData) (erc eru : GoError)
    (m : FlowEnv) (c : Client) (fc fu : FlowData) (efc efu : GoError)
    (hrc : (mr.roleSchemaToApi rc).2 = some erc)
    (hru : (mr.roleSchemaToApi ru).2 = some eru)
    (hruchg : ru.HasChanges ["namespace", "name", "description", "permissions", "is_default"]
      = true)
    (hfc : (m.flowSchemaToApi fc).2 = some efc)
    (hfck : fc.keep_original_source = false)
    (hfu : (m.flowSchemaToApi fu).2 = some efu)
    (hfuk : fu.keep_original_source = false)
    (hfuchg : fu.HasChanges ["content"] = true) :
    ((resourceRoleCreate mr cr rc).d = rc ∧
      (resourceRoleCreate mr cr rc).result = Result.returned [⟨Severity.Error, erc⟩] ∧
      remoteCalls (resourceRoleCreate mr cr rc).trace = []) ∧
    ((resourceRoleUpdate mr cr ru).d = ru ∧
      (resourceRoleUpdate mr cr ru).result = Result.returned [⟨Severity.Error, eru⟩] ∧
      remoteCalls (resourceRoleUpdate mr cr ru).trace = []) ∧
    ((resourceFlowCreate m c fc).d = fc ∧
      (resourceFlowCreate m c fc).result = Result.returned [⟨Severity.Error, efc⟩] ∧
      remoteCalls (resourceFlowCreate m c fc).trace = []) ∧
    ((resourceFlowUpdate m c fu).d = fu ∧
      (resourceFlowUpdate m c fu).result = Result.returned [⟨Severity.Error, efu⟩] ∧
      remoteCalls (resourceFlowUpdate m c fu).trace = []) := by
  refine ⟨?_, ?_, ?_, ?_⟩
  · simp [resourceRoleCreate, hrc, diag.FromErr, remoteCalls]
  · simp [resourceRoleUpdate, hruchg, hru, diag.FromErr, remoteCalls]
  · simp [resourceFlowCreate, hfck, hfc, diag.FromErr, remoteCalls]
  · simp [resourceFlowUpdate, hfuchg, hfuk, hfu, diag.FromErr, remoteCalls]

/-- Witness for C6: a role with two grants of the category "FLOW" and a structured flow
without content, written against a remote that would answer; the records given to Create
have a diff that reports no change. -/
theorem failed_to_remote_issues_no_request_witness :
    twiceGrantedNewRole.HasChanges
      ["namespace", "name", "description", "permissions", "is_default"] = false ∧
    emptyNewFlow.HasChanges ["content"] = false ∧
    (specRoleEnv.roleSchemaToApi twiceGrantedNewRole).2
      = some "ValidationError: duplicate permission type" ∧
    (specFlowEnv.flowSchemaToApi emptyNewFlow).2
      = some "ValidationError: a required field is absent" ∧
    (((resourceRoleCreate specRoleEnv (answeringClient []) twiceGrantedNewRole).d
        = twiceGrantedNewRole ∧
      (resourceRoleCreate specRoleEnv (answeringClient []) twiceGrantedNewRole).result
        = Result.returned [⟨Severity.Error, "ValidationError: duplicate permission type"⟩] ∧
      remoteCalls (resourceRoleCreate specRoleEnv (answeringClient [])
        twiceGrantedNewRole).trace = []) ∧
    ((resourceRoleUpdate specRoleEnv (answeringClient []) twiceGrantedRole).d
        = twiceGrantedRole ∧
      (resourceRoleUpdate specRoleEnv (answeringClient []) twiceGrantedRole).result
        = Result.returned [⟨Severity.Error, "ValidationError: duplicate permission type"⟩] ∧
      remoteCalls (resourceRoleUpdate specRoleEnv (answeringClient []) twiceGrantedRole).trace
        = []) ∧
    ((resourceFlowCreate specFlowEnv (answeringClient []) emptyNewFlow).d = emptyNewFlow ∧
      (resourceFlowCreate specFlowEnv (answeringClient []) emptyNewFlow).result
        = Result.returned [⟨Severity.Error, "ValidationError: a required field is absent"⟩] ∧
      remoteCalls (resourceFlowCreate specFlowEnv (answeringClient []) emptyNewFlow).trace
        = []) ∧
    ((resourceFlowUpdate specFlowEnv (answeringClient []) emptyFlow).d = emptyFlow ∧
      (resourceFlowUpdate specFlowEnv (answeringClient []) emptyFlow).result
        = Result.returned [⟨Severity.Error, "ValidationError: a required field is absent"⟩] ∧
      remoteCalls (resourceFlowUpdate specFlowEnv (answeringClient []) emptyFlow).trace
        = [])) :=
  ⟨by decide, by decide, by decide, by decide,
   failed_to_remote_issues_no_request specRoleEnv (answeringClient [])
     twiceGrantedNewRole twiceGrantedRole
     "ValidationError: duplicate permission type" "ValidationError: duplicate permission type"
     specFlowEnv (answeringClient []) emptyNewFlow emptyFlow
     "ValidationError: a required field is absent"
     "ValidationError: a required field is absent"
     (by decide) (by decide) (by decide) (by decide) rfl (by decide) rfl (by decide)⟩

/-! ## Identifier decoding in Read -/

/-- C7, counterexample. The identifier "broken" has no separator. With the decoder of the
spec, which fails on it, Read ends in a panic: it returns no diagnostics at all. With a
decoder that returns components for it, Read proceeds to the remote fetch with those
components and, the remote answering, reports success. -/
theorem flow_read_malformed_identifier_counterexample :
    specFlowEnv.flowConvertId "broken" = none ∧
    (resourceFlowRead specFlowEnv (answeringClient []) { rawFlow with id := "broken" }).result
      = Result.panicked ∧
    lenientFlowEnv.flowConvertId "broken" = some ("broken", "") ∧
    requests (resourceFlowRead lenientFlowEnv (answeringClient [])
        { rawFlow with id := "broken" }).trace
      = [("GET", "/api/v1/flows/broken/?source=true")] ∧
    (resourceFlowRead lenientFlowEnv (answeringClient [])
        { rawFlow with id := "broken" }).result = Result.returned [] := by
  decide

/-- C7, amended. Flow Read (and Import, which is Read on the supplied identifier) reports
no decode failure: `flowConvertId` has no error result and Read tests none. When the
decoder returns components (ns, id), Read proceeds to the fetch
GET "/api/v1/flows/ns/id" (with "?source=true" in raw-source mode); when it does not
return, Read ends in a panic without a request; and whenever Read returns diagnostics it
has issued that fetch. -/
theorem flow_read_reports_no_decode_error
    (m : FlowEnv) (c : Client) (d : FlowData) :
    (∀ ns fid, m.flowConvertId d.id = some (ns, fid) →
      requests (resourceFlowRead m c d).trace =
        [("GET", "/api/v1/flows/" ++ ns ++ "/" ++ fid ++
          (if d.keep_original_source = true then "?source=true" else ""))]) ∧
    (m.flowConvertId d.id = none →
      requests (resourceFlowRead m c d).trace = [] ∧
      (resourceFlowRead m c d).result = Result.panicked) ∧
    (∀ diags, (resourceFlowRead m c d).result = Result.returned diags →
      ∃ ns fid, m.flowConvertId d.id = some (ns, fid) ∧
        requests (resourceFlowRead m c d).trace =
          [("GET", "/api/v1/flows/" ++ ns ++ "/" ++ fid ++
            (if d.keep_original_source = true then "?source=true" else ""))]) := by
  refine ⟨fun ns fid hid => requests_resourceFlowRead m c d ns fid hid,
    fun hid => requests_resourceFlowRead_none m c d hid, ?_⟩
  intro diags hres
  cases hid : m.flowConvertId d.id with
  | none =>
    rw [(requests_resourceFlowRead_none m c d hid).2] at hres
    cases hres
  | some q =>
    obtain ⟨ns, fid⟩ := q
    exact ⟨ns, fid, rfl, requests_resourceFlowRead m c d ns fid hid⟩

/-! ## Role paths -/

/-- C9. Every remote request of role Create, Read, Update and Delete is addressed under
`apiRoot` of the client's TenantId: Create to apiRoot + "/roles", the others to
apiRoot + "/roles/" + the stored identifier; two records with the same identifier, whatever
their tenant_id and other fields, are addressed alike. -/
theorem role_paths_use_client_tenant
    (m : RoleEnv) (c : Client) (d d2 : RoleData) (hid : d2.id = d.id) :
    (∀ p ∈ requests (resourceRoleCreate m c d).trace,
      p = ("POST", m.apiRoot c.TenantId ++ "/roles")) ∧
    requests (resourceRoleRead m c d).trace
      = [("GET", m.apiRoot c.TenantId ++ "/roles/" ++ d.id)] ∧
    (∀ p ∈ requests (resourceRoleUpdate m c d).trace,
      p.2 = m.apiRoot c.TenantId ++ "/roles/" ++ d.id) ∧
    requests (resourceRoleDelete m c d).trace
      = [("DELETE", m.apiRoot c.TenantId ++ "/roles/" ++ d.id)] ∧
    ((m.roleSchemaToApi d).2 = none →
      requests (resourceRoleCreate m c d).trace
        = [("POST", m.apiRoot c.TenantId ++ "/roles")] ∧
      (d.HasChanges ["namespace", "name", "description", "permissions", "is_default"] = true →
        requests (resourceRoleUpdate m c d).trace
          = [("PUT", m.apiRoot c.TenantId ++ "/roles/" ++ d.id)])) ∧
    (∀ p ∈ requests (resourceRoleCreate m c d).trace,
      ∀ q ∈ requests (resourceRoleCreate m c d2).trace, p.2 = q.2) ∧
    (∀ p ∈ requests (resourceRoleRead m c d).trace,
      ∀ q ∈ requests (resourceRoleRead m c d2).trace, p.2 = q.2) ∧
    (∀ p ∈ requests (resourceRoleUpdate m c d).trace,
      ∀ q ∈ requests (resourceRoleUpdate m c d2).trace, p.2 = q.2) ∧
    (∀ p ∈ requests (resourceRoleDelete m c d).trace,
      ∀ q ∈ requests (resourceRoleDelete m c d2).trace, p.2 = q.2) := by
  have hU : ∀ x : RoleData, ∀ p ∈ requests (resourceRoleUpdate m c x).trace,
      p.2 = m.apiRoot c.TenantId ++ "/roles/" ++ x.id := by
    intro x p hp
    rw [requests_resourceRoleUpdate] at hp
    split at hp
    · split at hp <;> simp_all
    · simp_all
  have hC : ∀ x : RoleData, ∀ p ∈ requests (resourceRoleCreate m c x).trace,
      p = ("POST", m.apiRoot c.TenantId ++ "/roles") := by
    intro x p hp
    rw [requests_resourceRoleCreate] at hp
    split at hp <;> simp_all
  refine ⟨hC d, requests_resourceRoleRead m c d, hU d, requests_resourceRoleDelete m c d,
    ?_, ?_, ?_, ?_, ?_⟩
  · intro hb
    constructor
    · simp [requests_resourceRoleCreate, hb]
    · intro hc
      simp [requests_resourceRoleUpdate, hb, hc]
  · intro p hp q hq
    rw [hC d p hp, hC d2 q hq]
  · intro p hp q hq
    rw [requests_resourceRoleRead] at hp hq
    simp_all
  · intro p hp q hq
    rw [hU d p hp, hU d2 q hq, hid]
  · intro p hp q hq
    rw [requests_resourceRoleDelete] at hp hq
    simp_all

/-- Witness for C9: two roles with the identifier "r1" that differ in every other field,
tenant_id included, against the client of tenant "main". -/
theorem role_paths_use_client_tenant_witness :
    renamedRole.id = adminRole.id ∧
    renamedRole.tenant_id ≠ adminRole.tenant_id ∧
    requests (resourceRoleRead specRoleEnv (answeringClient []) adminRole).trace
      = [("GET", specRoleEnv.apiRoot (answeringClient []).TenantId ++ "/roles/" ++ adminRole.id)] ∧
    requests (resourceRoleDelete specRoleEnv (answeringClient []) adminRole).trace
      = [("DELETE", specRoleEnv.apiRoot (answeringClient []).TenantId ++ "/roles/"
          ++ adminRole.id)] ∧
    requests (resourceRoleRead specRoleEnv (answeringClient []) renamedRole).trace
      = [("GET", "/api/v1/main/roles/r1")] :=
  ⟨by decide, by decide,
   (role_paths_use_client_tenant specRoleEnv (answeringClient []) adminRole renamedRole
      (by decide)).2.1,
   (role_paths_use_client_tenant specRoleEnv (answeringClient []) adminRole renamedRole
      (by decide)).2.2.2.1,
   by decide⟩

/-! ## Flow writes: dispatch on the representation mode -/

/-- C10. Flow Create (records `rc`, `sc`) and flow Update with changed content (records
`ru`, `su`). In raw-source mode (`rc`, `ru`) the operation issues exactly one request, a
`yamlRequest` whose body is the record's content string, and calls no mapper other than
`flowSourceApiToSchema`: when the remote answers with a document, the final record and the
returned diagnostics are that mapper's output on the answer; when the remote fails, the
record is unchanged and the failure is returned. In structured mode (`sc`, `su`) it first
calls `flowSchemaToApi`, every request it issues is a `request` whose body is that mapper's
output (exactly one when the mapper succeeds and, for Update, the identifier is decoded),
and its only write-back is `flowApiToSchema`: when the remote answers with a document, the
final record and the returned diagnostics are that mapper's output on the answer; when the
remote fails, the record is unchanged and the failure is returned. Create is under no
condition on the diff. -/
theorem flow_write_mode_dispatch
    (m : FlowEnv) (c : Client) (rc ru sc su : FlowData)
    (hrc : rc.keep_original_source = true)
    (hru : ru.keep_original_source = true) (hruchg : ru.HasChanges ["content"] = true)
    (hsc : sc.keep_original_source = false)
    (hsu : su.keep_original_source = false) (hsuchg : su.HasChanges ["content"] = true) :
    (remoteCalls (resourceFlowCreate m c rc).trace
        = [Event.yamlRequest "POST" "/api/v1/flows" (some rc.content)] ∧
      (∀ e ∈ mapperCalls (resourceFlowCreate m c rc).trace, e = Event.flowSourceApiToSchema) ∧
      (∀ doc, (c.yamlRequest "POST" "/api/v1/flows" (some rc.content)).2 = none →
        (c.yamlRequest "POST" "/api/v1/flows" (some rc.content)).1.asMap = some doc →
        (resourceFlowCreate m c rc).d = (m.flowSourceApiToSchema doc rc).1 ∧
        (resourceFlowCreate m c rc).result
          = Result.returned (m.flowSourceApiToSchema doc rc).2 ∧
        mapperCalls (resourceFlowCreate m c rc).trace = [Event.flowSourceApiToSchema]) ∧
      (∀ e, (c.yamlRequest "POST" "/api/v1/flows" (some rc.content)).2 = some e →
        (resourceFlowCreate m c rc).d = rc ∧
        (resourceFlowCreate m c rc).result = Result.returned (diag.FromErr e.Err) ∧
        mapperCalls (resourceFlowCreate m c rc).trace = []) ∧
      ((c.yamlRequest "POST" "/api/v1/flows" (some rc.content)).2 = none →
        (c.yamlRequest "POST" "/api/v1/flows" (some rc.content)).1.asMap = none →
        (resourceFlowCreate m c rc).d = rc ∧
        (resourceFlowCreate m c rc).result = Result.panicked ∧
        mapperCalls (resourceFlowCreate m c rc).trace = [])) ∧
    (remoteCalls (resourceFlowUpdate m c ru).trace
        = [Event.yamlRequest "PUT" ("/api/v1/flows/" ++ ru.namespace_ ++ "/" ++ ru.flow_id)
            (some ru.content)] ∧
      (∀ e ∈ mapperCalls (resourceFlowUpdate m c ru).trace, e = Event.flowSourceApiToSchema) ∧
      (∀ doc,
        (c.yamlRequest "PUT" ("/api/v1/flows/" ++ ru.namespace_ ++ "/" ++ ru.flow_id)
          (some ru.content)).2 = none →
        (c.yamlRequest "PUT" ("/api/v1/flows/" ++ ru.namespace_ ++ "/" ++ ru.flow_id)
          (some ru.content)).1.asMap = some doc →
        (resourceFlowUpdate m c ru).d = (m.flowSourceApiToSchema doc ru).1 ∧
        (resourceFlowUpdate m c ru).result
          = Result.returned (m.flowSourceApiToSchema doc ru).2 ∧
        mapperCalls (resourceFlowUpdate m c ru).trace = [Event.flowSourceApiToSchema]) ∧
      (∀ e,
        (c.yamlRequest "PUT" ("/api/v1/flows/" ++ ru.namespace_ ++ "/" ++ ru.flow_id)
          (some ru.content)).2 = some e →
        (resourceFlowUpdate m c ru).d = ru ∧
        (resourceFlowUpdate m c ru).result = Result.returned (diag.FromErr e.Err) ∧
        mapperCalls (resourceFlowUpdate m c ru).trace = []) ∧
      ((c.yamlRequest "PUT" ("/api/v1/flows/" ++ ru.namespace_ ++ "/" ++ ru.flow_id)
          (some ru.content)).2 = none →
        (c.yamlRequest "PUT" ("/api/v1/flows/" ++ ru.namespace_ ++ "/" ++ ru.flow_id)
          (some ru.content)).1.asMap = none →
        (resourceFlowUpdate m c ru).d = ru ∧
        (resourceFlowUpdate m c ru).result = Result.panicked ∧
        mapperCalls (resourceFlowUpdate m c ru).trace = [])) ∧
    ((mapperCalls (resourceFlowCreate m c sc).trace).head? = some Event.flowSchemaToApi ∧
      (∀ e ∈ remoteCalls (resourceFlowCreate m c sc).trace,
        e = Event.request "POST" "/api/v1/flows" (some (m.flowSchemaToApi sc).1)) ∧
      ((m.flowSchemaToApi sc).2 = none →
        remoteCalls (resourceFlowCreate m c sc).trace
          = [Event.request "POST" "/api/v1/flows" (some (m.flowSchemaToApi sc).1)]) ∧
      (∀ e ∈ writeBacks (resourceFlowCreate m c sc).trace, e = Event.flowApiToSchema) ∧
      ((m.flowSchemaToApi sc).2 = none → ∀ doc,
        (c.request "POST" "/api/v1/flows" (some (m.flowSchemaToApi sc).1)).2 = none →
        (c.request "POST" "/api/v1/flows" (some (m.flowSchemaToApi sc).1)).1.asMap
          = some doc →
        (resourceFlowCreate m c sc).d = (m.flowApiToSchema doc sc).1 ∧
        (resourceFlowCreate m c sc).result = Result.returned (m.flowApiToSchema doc sc).2 ∧
        mapperCalls (resourceFlowCreate m c sc).trace
          = [Event.flowSchemaToApi, Event.flowApiToSchema]) ∧
      ((m.flowSchemaToApi sc).2 = none → ∀ e,
        (c.request "POST" "/api/v1/flows" (some (m.flowSchemaToApi sc).1)).2 = some e →
        (resourceFlowCreate m c sc).d = sc ∧
        (resourceFlowCreate m c sc).result = Result.returned (diag.FromErr e.Err) ∧
        mapperCalls (resourceFlowCreate m c sc).trace = [Event.flowSchemaToApi]) ∧
      ((m.flowSchemaToApi sc).2 = none →
        (c.request "POST" "/api/v1/flows" (some (m.flowSchemaToApi sc).1)).2 = none →
        (c.request "POST" "/api/v1/flows" (some (m.flowSchemaToApi sc).1)).1.asMap = none →
        (resourceFlowCreate m c sc).d = sc ∧
        (resourceFlowCreate m c sc).result = Result.panicked ∧
        mapperCalls (resourceFlowCreate m c sc).trace = [Event.flowSchemaToApi])) ∧
    ((mapperCalls (resourceFlowUpdate m c su).trace).head? = some Event.flowSchemaToApi ∧
      (∀ e ∈ remoteCalls (resourceFlowUpdate m c su).trace,
        ∃ url, e = Event.request "PUT" url (some (m.flowSchemaToApi su).1)) ∧
      ((m.flowSchemaToApi su).2 = none → ∀ ns fid, m.flowConvertId su.id = some (ns, fid) →
        remoteCalls (resourceFlowUpdate m c su).trace
          = [Event.request "PUT" ("/api/v1/flows/" ++ ns ++ "/" ++ fid)
              (some (m.flowSchemaToApi su).1)]) ∧
      (∀ e ∈ writeBacks (resourceFlowUpdate m c su).trace, e = Event.flowApiToSchema) ∧
      ((m.flowSchemaToApi su).2 = none → ∀ ns fid, m.flowConvertId su.id = some (ns, fid) →
        ∀ doc,
        (c.request "PUT" ("/api/v1/flows/" ++ ns ++ "/" ++ fid)
          (some (m.flowSchemaToApi su).1)).2 = none →
        (c.request "PUT" ("/api/v1/flows/" ++ ns ++ "/" ++ fid)
          (some (m.flowSchemaToApi su).1)).1.asMap = some doc →
        (resourceFlowUpdate m c su).d = (m.flowApiToSchema doc su).1 ∧
        (resourceFlowUpdate m c su).result = Result.returned (m.flowApiToSchema doc su).2 ∧
        mapperCalls (resourceFlowUpdate m c su).trace
          = [Event.flowSchemaToApi, Event.flowApiToSchema]) ∧
      ((m.flowSchemaToApi su).2 = none → ∀ ns fid, m.flowConvertId su.id = some (ns, fid) →
        ∀ e,
        (c.request "PUT" ("/api/v1/flows/" ++ ns ++ "/" ++ fid)
          (some (m.flowSchemaToApi su).1)).2 = some e →
        (resourceFlowUpdate m c su).d = su ∧
        (resourceFlowUpdate m c su).result = Result.returned (diag.FromErr e.Err) ∧
        mapperCalls (resourceFlowUpdate m c su).trace = [Event.flowSchemaToApi]) ∧
      ((m.flowSchemaToApi su).2 = none → ∀ ns fid, m.flowConvertId su.id = some (ns, fid) →
        (c.request "PUT" ("/api/v1/flows/" ++ ns ++ "/" ++ fid)
          (some (m.flowSchemaToApi su).1)).2 = none →
        (c.request "PUT" ("/api/v1/flows/" ++ ns ++ "/" ++ fid)
          (some (m.flowSchemaToApi su).1)).1.asMap = none →
        (resourceFlowUpdate m c su).d = su ∧
        (resourceFlowUpdate m c su).result = Result.panicked ∧
        mapperCalls (resourceFlowUpdate m c su).trace = [Event.flowSchemaToApi])) := by
  refine ⟨?_, ?_, ?_, ?_⟩
  · unfold resourceFlowCreate
    simp only [hrc, if_true, stringToPointer]
    (repeat' split) <;> simp_all [remoteCalls, mapperCalls]
  · unfold resourceFlowUpdate
    simp only [hru, hruchg, if_true, stringToPointer]
    (repeat' split) <;> simp_all [remoteCalls, mapperCalls]
  · unfold resourceFlowCreate
    simp only [hsc]
    (repeat' split) <;> simp_all [remoteCalls, mapperCalls, writeBacks]
  · unfold resourceFlowUpdate
    simp only [hsu, hsuchg, if_true]
    (repeat' split) <;> simp_all [remoteCalls, mapperCalls, writeBacks]

/-- Witness for C10: raw-source and structured flows, created (diff reporting no change)
and updated (content changed) against a remote that answers with revision 2. -/
theorem flow_write_mode_dispatch_witness :
    newRawFlow.HasChanges ["content"] = false ∧
    newStructuredFlow.HasChanges ["content"] = false ∧
    (specFlowEnv.flowSourceApiToSchema helloDoc newRawFlow).1.revision = 2 ∧
    (specFlowEnv.flowSourceApiToSchema helloDoc newRawFlow).1.id = "company.team/hello" ∧
    remoteCalls (resourceFlowCreate specFlowEnv (answeringClient helloDoc) newRawFlow).trace
      = [Event.yamlRequest "POST" "/api/v1/flows" (some newRawFlow.content)] ∧
    ((resourceFlowCreate specFlowEnv (answeringClient helloDoc) newRawFlow).d
        = (specFlowEnv.flowSourceApiToSchema helloDoc newRawFlow).1 ∧
      (resourceFlowCreate specFlowEnv (answeringClient helloDoc) newRawFlow).result
        = Result.returned (specFlowEnv.flowSourceApiToSchema helloDoc newRawFlow).2 ∧
      mapperCalls (resourceFlowCreate specFlowEnv (answeringClient helloDoc) newRawFlow).trace
        = [Event.flowSourceApiToSchema]) ∧
    ((resourceFlowUpdate specFlowEnv (answeringClient helloDoc) rawFlow).d
        = (specFlowEnv.flowSourceApiToSchema helloDoc rawFlow).1 ∧
      (resourceFlowUpdate specFlowEnv (answeringClient helloDoc) rawFlow).result
        = Result.returned (specFlowEnv.flowSourceApiToSchema helloDoc rawFlow).2 ∧
      mapperCalls (resourceFlowUpdate specFlowEnv (answeringClient helloDoc) rawFlow).trace
        = [Event.flowSourceApiToSchema]) ∧
    ((resourceFlowCreate specFlowEnv (answeringClient helloDoc) newStructuredFlow).d
        = (specFlowEnv.flowApiToSchema helloDoc newStructuredFlow).1 ∧
      (resourceFlowCreate specFlowEnv (answeringClient helloDoc) newStructuredFlow).result
        = Result.returned (specFlowEnv.flowApiToSchema helloDoc newStructuredFlow).2 ∧
      mapperCalls
          (resourceFlowCreate specFlowEnv (answeringClient helloDoc) newStructuredFlow).trace
        = [Event.flowSchemaToApi, Event.flowApiToSchema]) ∧
    ((resourceFlowUpdate specFlowEnv (answeringClient helloDoc) structuredFlow).d
        = (specFlowEnv.flowApiToSchema helloDoc structuredFlow).1 ∧
      (resourceFlowUpdate specFlowEnv (answeringClient helloDoc) structuredFlow).result
        = Result.returned (specFlowEnv.flowApiToSchema helloDoc structuredFlow).2 ∧
      mapperCalls
          (resourceFlowUpdate specFlowEnv (answeringClient helloDoc) structuredFlow).trace
        = [Event.flowSchemaToApi, Event.flowApiToSchema]) ∧
    remoteCalls (resourceFlowUpdate specFlowEnv (answeringClient helloDoc) structuredFlow).trace
      = [Event.request "PUT" ("/api/v1/flows/" ++ "company.team" ++ "/" ++ "hello")
          (some (specFlowEnv.flowSchemaToApi structuredFlow).1)] :=
  ⟨by decide, by decide, by decide, by decide,
   (flow_write_mode_dispatch specFlowEnv (answeringClient helloDoc)
      newRawFlow rawFlow newStructuredFlow structuredFlow
      rfl rfl (by decide) rfl rfl (by decide)).1.1,
   (flow_write_mode_dispatch specFlowEnv (answeringClient helloDoc)
      newRawFlow rawFlow newStructuredFlow structuredFlow
      rfl rfl (by decide) rfl rfl (by decide)).1.2.2.1 helloDoc rfl rfl,
   (flow_write_mode_dispatch specFlowEnv (answeringClient helloDoc)
      newRawFlow rawFlow newStructuredFlow structuredFlow
      rfl rfl (by decide) rfl rfl (by decide)).2.1.2.2.1 helloDoc rfl rfl,
   (flow_write_mode_dispatch specFlowEnv (answeringClient helloDoc)
      newRawFlow rawFlow newStructuredFlow structuredFlow
      rfl rfl (by decide) rfl rfl (by decide)).2.2.1.2.2.2.2.1 (by decide) helloDoc rfl rfl,
   (flow_write_mode_dispatch specFlowEnv (answeringClient helloDoc)
      newRawFlow rawFlow newStructuredFlow structuredFlow
      rfl rfl (by decide) rfl rfl (by decide)).2.2.2.2.2.2.2.1 (by decide)
      "company.team" "hello" (by decide) helloDoc rfl rfl,
   (flow_write_mode_dispatch specFlowEnv (answeringClient helloDoc)
      newRawFlow rawFlow newStructuredFlow structuredFlow
      rfl rfl (by decide) rfl rfl (by decide)).2.2.2.2.2.1 (by decide)
      "company.team" "hello" (by decide)⟩

end Kestra
